import Mathlib

/-!
Shallow embedding of the tomorrows-money back-end business logic.

Each definition translates one function (or the relevant pure core of one
function) of the JavaScript source:

* `ReqUser` models `req.user` as attached by the authentication middleware
  (`id`, `type` with 0 = regular, 1 = admin, 2 = viewer, and the optional
  `viewable_user_id` delegation target of viewer accounts).
* the `*Controller.buildUserFilter` functions translate the per-controller
  `buildUserFilter(req, additionalWhere)` helpers; the returned
  `Option Nat` is the `user_id` (for `UserController`: `id`) constraint the
  helper puts into the Sequelize `where` clause (`none` = no constraint).
* money amounts (`DECIMAL(10,2)` columns, `parseFloat`ed request fields)
  are modelled as rationals; JavaScript truthiness tests on request fields
  are modelled by the `jsTruthy*` helpers, and `Math.round` by `jsRound`
  (floor of x + 1/2, which agrees with JS rounding on the non-negative
  values produced here).
* fallible handlers return `Except Nat α` or `Nat × α`, the `Nat` being the
  HTTP status code of the response.
-/

structure ReqUser where
  id : Nat
  type : Nat
  viewable_user_id : Option Nat
deriving Repr, DecidableEq

/-- JS truthiness of an optional string request field: `undefined` and the
empty string are falsy. -/
def jsTruthyStr : Option String → Bool
  | none => false
  | some s => !(s == "")

/-- JS truthiness of an optional numeric request field: `undefined` and `0`
are falsy. -/
def jsTruthyNum : Option ℚ → Bool
  | none => false
  | some x => !(decide (x = 0))

/-- JS truthiness of an optional integer id field: `undefined` and `0` are
falsy. -/
def jsTruthyNat : Option Nat → Bool
  | none => false
  | some n => !(n == 0)

/-- `Math.round` on the rationals: floor of `q + 1/2` (ties go up, as in
JavaScript for the non-negative values arising here). -/
def jsRound (q : ℚ) : ℤ := (q + 1/2).floor

/-- `String.prototype.toLowerCase` restricted to the ASCII range, as a plain
character map. -/
def strToLower (s : String) : String := ⟨s.data.map Char.toLower⟩

/-- Whether `p` occurs as a contiguous sublist of `l` (the character-level
core of `String.prototype.includes`). -/
def containsSub (l p : List Char) : Bool :=
  match l with
  | [] => p.isEmpty
  | c :: cs => (p.isPrefixOf (c :: cs)) || containsSub cs p

/-- `path.includes(pat)` on strings. -/
def strContains (s pat : String) : Bool := containsSub s.data pat.data

/-- The regex test `/\/\d+$/` used by the audit middleware: the path ends in
a slash followed by one or more digits. -/
def endsWithNumId (s : String) : Bool :=
  let r := s.data.reverse
  (!(r.takeWhile Char.isDigit).isEmpty) &&
    (match r.dropWhile Char.isDigit with
     | c :: _ => c == '/'
     | [] => false)

structure GoalRow where
  id : Nat
  user_id : Nat
  current_amount : ℚ
  target_amount : ℚ
  is_completed : Bool
deriving Repr, DecidableEq

structure TxRow where
  id : Nat
  user_id : Nat
  amount : ℚ
  category_id : Nat
deriving Repr, DecidableEq

structure TagRow where
  id : Nat
  user_id : Nat
  name : String
deriving Repr, DecidableEq

structure CategoryRow where
  id : Nat
  user_id : Nat
deriving Repr, DecidableEq

/-- Whether a row with owner column `owner` matches a `where` clause whose
`user_id` entry is `f` (`none` = the clause has no `user_id` entry). -/
def matchesUserFilter (f : Option Nat) (owner : Nat) : Bool :=
  match f with
  | none => true
  | some w => owner == w

/-- goalController.js `GoalController.buildUserFilter`: only regular users
(type 0) get a `user_id` constraint; admins (type 1) and viewers (type 2)
get none beyond what the caller put into `additionalWhere`. -/
def GoalController.buildUserFilter (u : ReqUser) (additional : Option Nat) : Option Nat :=
  if u.type = 0 then some u.id else additional

/-- tagController.js (second half) `TransactionController.buildUserFilter`:
identical to the goal variant, viewers get no constraint. -/
def TransactionController.buildUserFilter (u : ReqUser) (additional : Option Nat) : Option Nat :=
  if u.type = 0 then some u.id else additional

/-- categoryController.js `CategoryController.buildUserFilter`: identical to
the goal variant, viewers get no constraint. -/
def CategoryController.buildUserFilter (u : ReqUser) (additional : Option Nat) : Option Nat :=
  if u.type = 0 then some u.id else additional

/-- tagController.js `TagController.buildUserFilter`: regular users are
pinned to their own id, viewers to `viewable_user_id || user_id`. -/
def TagController.buildUserFilter (u : ReqUser) (additional : Option Nat) : Option Nat :=
  if u.type = 0 then some u.id
  else if u.type = 2 then some ((u.viewable_user_id).getD u.id)
  else additional

/-- userController.js `UserController.buildUserFilter` (constraint on the
user `id` column): regular users pinned to themselves, viewers to
`viewable_user_id || user_id`. -/
def UserController.buildUserFilter (u : ReqUser) (additionalId : Option Nat) : Option Nat :=
  if u.type = 0 then some u.id
  else if u.type = 2 then some ((u.viewable_user_id).getD u.id)
  else additionalId

/-- The row set returned by `GoalController.getAll` (plain listing, no query
parameters): `Goal.findAndCountAll` under `buildUserFilter`. -/
def GoalController.listGoals (u : ReqUser) (db : List GoalRow) : List GoalRow :=
  db.filter (fun g => matchesUserFilter (GoalController.buildUserFilter u none) g.user_id)

/-- The row set returned by `TransactionController.getAll` (plain listing). -/
def TransactionController.listTransactions (u : ReqUser) (db : List TxRow) : List TxRow :=
  db.filter (fun t => matchesUserFilter (TransactionController.buildUserFilter u none) t.user_id)

/-- The row set returned by `TagController.getAll` (plain listing). -/
def TagController.listTags (u : ReqUser) (db : List TagRow) : List TagRow :=
  db.filter (fun t => matchesUserFilter (TagController.buildUserFilter u none) t.user_id)

/-- permissionsMiddleware.js `checkWritePermissions`: responds 403 for every
viewer (type 2) before the route handler runs. `true` means the request is
rejected with 403. -/
def checkWritePermissions (u : ReqUser) : Bool := u.type == 2

/-- userController.js `UserController.delete` (status code only).
`userExists` is the `User.findOne` lookup outcome, `ownedDataCount` the
total of owned transactions, categories and goals. The first branch mirrors
the special case that lets a viewer delete their own account and the 403 for
other non-admins touching a foreign id. -/
def UserController.deleteUser (u : ReqUser) (paramId : Nat) (userExists : Bool)
    (ownedDataCount : Nat) : Nat :=
  if ¬(u.type = 2 ∧ paramId = u.id) ∧ u.type ≠ 1 ∧ paramId ≠ u.id then 403
  else if ¬userExists then 404
  else if 0 < ownedDataCount then 400
  else 204

/-- userController.js `UserController.update` (status code only): the row is
looked up under `buildUserFilter` with `{ id: paramId }` as
`additionalWhere`; 404 when nothing is visible under that filter. -/
def UserController.updateUser (u : ReqUser) (paramId : Nat) (dbUserIds : List Nat) : Nat :=
  let target := (UserController.buildUserFilter u (some paramId)).getD paramId
  if dbUserIds.contains target then 200 else 404

/-- The `DELETE /users/:id` pipeline of the routes file that wires
`checkWritePermissions` in front of every write handler. -/
def Routes.usersIdDelete (u : ReqUser) (paramId : Nat) (userExists : Bool)
    (ownedDataCount : Nat) : Nat :=
  if checkWritePermissions u then 403
  else UserController.deleteUser u paramId userExists ownedDataCount

/-- The `PUT /users/:id` pipeline of the same routes file. -/
def Routes.usersIdPut (u : ReqUser) (paramId : Nat) (dbUserIds : List Nat) : Nat :=
  if checkWritePermissions u then 403
  else UserController.updateUser u paramId dbUserIds

/-- goalController.js `GoalController.create`. The boolean parameters are
the outcomes of the data-base lookups the handler performs in sequence:
target user exists, referenced category visible, supplied target date in
the future (also true when the respective field is absent), and name
conflict for the resolved owner. Note the built `goalData` carries no
`is_completed` key, so the model default `false` applies to the new row. -/
def GoalController.createGoal (u : ReqUser) (name : Option String)
    (target_amount current_amount : Option ℚ) (target_user_id : Option Nat)
    (targetUserExists categoryOk targetDateOk nameTaken : Bool) :
    Except Nat GoalRow :=
  if u.type = 2 then .error 403
  else if !(jsTruthyStr name) || !(jsTruthyNum target_amount) then .error 400
  else
    let target : Nat := if u.type = 1 then target_user_id.getD u.id else u.id
    if ¬targetUserExists then .error 404
    else if ¬categoryOk then .error 404
    else if ¬targetDateOk then .error 400
    else if nameTaken then .error 400
    else .ok { id := 0, user_id := target,
               current_amount := current_amount.getD 0,
               target_amount := target_amount.getD 0,
               is_completed := false }

/-- goalController.js `GoalController.addProgress`, applied to the goal row
found under the user filter (the claim-relevant part after the lookup):
rejects missing/zero/negative amounts with 400, rejects completed goals
with 400, otherwise adds the amount and sets `is_completed` exactly when
the new current amount reaches the target. Returns (status, row). -/
def GoalController.addProgress (g : GoalRow) (amount : Option ℚ) : Nat × GoalRow :=
  match amount with
  | none => (400, g)
  | some a =>
    if a ≤ 0 then (400, g)
    else if g.is_completed then (400, g)
    else
      let nc := g.current_amount + a
      if g.target_amount ≤ nc then
        (200, { g with current_amount := nc, is_completed := true })
      else
        (200, { g with current_amount := nc })

/-- goalController.js `GoalController.update`, restricted to the field merge
performed on the row found under the user filter: body fields present in
the request overwrite the row (after `user_id`/`target_user_id` are
stripped), then the auto-complete rule forces `is_completed := true` when
the body supplied a `current_amount` that is at least the existing row's
`target_amount`. -/
def GoalController.updateGoal (g : GoalRow) (currentBody targetBody : Option ℚ)
    (isCompletedBody : Option Bool) : GoalRow :=
  let merged : GoalRow :=
    { g with
      current_amount := currentBody.getD g.current_amount,
      target_amount := targetBody.getD g.target_amount,
      is_completed := isCompletedBody.getD g.is_completed }
  match currentBody with
  | some c => if g.target_amount ≤ c then { merged with is_completed := true } else merged
  | none => merged

/-- goalController.js `addCalculatedFields`: `progress_percentage`. -/
def GoalController.progressPercentage (g : GoalRow) : ℤ :=
  if 0 < g.target_amount then
    min 100 (jsRound (g.current_amount / g.target_amount * 100))
  else 0

/-- goalController.js `addCalculatedFields`: `remaining_amount`. -/
def GoalController.remainingAmount (g : GoalRow) : ℚ :=
  max 0 (g.target_amount - g.current_amount)

structure Milestone where
  percentage : ℚ
  amount : ℚ
  achieved : Bool
deriving Repr, DecidableEq

/-- goalController.js `GoalController.getProgress`: the four fixed
milestones (the source multipliers 0.25, 0.5, 0.75 are the exact rationals
1/4, 1/2, 3/4). -/
def GoalController.goalMilestones (g : GoalRow) : List Milestone :=
  [ { percentage := 25, amount := g.target_amount * (1/4),
      achieved := decide (g.target_amount * (1/4) ≤ g.current_amount) },
    { percentage := 50, amount := g.target_amount * (1/2),
      achieved := decide (g.target_amount * (1/2) ≤ g.current_amount) },
    { percentage := 75, amount := g.target_amount * (3/4),
      achieved := decide (g.target_amount * (3/4) ≤ g.current_amount) },
    { percentage := 100, amount := g.target_amount,
      achieved := decide (g.target_amount ≤ g.current_amount) } ]

/-- goalController.js `GoalController.getProgress`:
`milestones.find((m) => !m.achieved) || null`. -/
def GoalController.nextMilestone (g : GoalRow) : Option Milestone :=
  (GoalController.goalMilestones g).find? (fun m => !m.achieved)

structure TxCreateBody where
  amount : Option ℚ
  txType : Option String
  description : Option String
  category_id : Option Nat
  tags : Option (List Nat)
  target_user_id : Option Nat
deriving Repr, DecidableEq

/-- tagController.js (second half) `TransactionController.create`: owner
resolution — admins may specify a (truthy) `target_user_id`, everyone else
writes as themselves. -/
def TransactionController.resolveTargetUser (u : ReqUser) (target_user_id : Option Nat) : Nat :=
  if u.type = 1 then target_user_id.getD u.id else u.id

/-- tagController.js (second half) `TransactionController.create`:
validation, owner resolution, category check, the `Transaction.create`
model validation (`amount` DECIMAL with `min: 0.01`; a violation raises,
the transaction is rolled back and the catch block answers 500), and the
tag-association step (`Tag.findAll` under the permission-dependent
`tagWhere`, then `setTags`). Returns the created row and its attached tag
rows. -/
def TransactionController.createTransaction (u : ReqUser) (b : TxCreateBody)
    (userExists : Nat → Bool) (cats : List CategoryRow) (allTags : List TagRow) :
    Except Nat (TxRow × List TagRow) :=
  if !(jsTruthyNum b.amount) || !(jsTruthyStr b.txType) ||
      !(jsTruthyStr b.description) || !(jsTruthyNat b.category_id) then .error 400
  else if !(userExists (TransactionController.resolveTargetUser u b.target_user_id)) then
    .error 404
  else if !(cats.any (fun c => c.id == b.category_id.getD 0 &&
      (decide (u.type ≠ 0) || c.user_id == u.id))) then
    .error 404
  else if b.amount.getD 0 < 1/100 then .error 500
  else
    .ok ({ id := 0, user_id := TransactionController.resolveTargetUser u b.target_user_id,
           amount := b.amount.getD 0, category_id := b.category_id.getD 0 },
         match b.tags with
         | none => []
         | some ids =>
           allTags.filter (fun t => ids.contains t.id &&
             matchesUserFilter
               (if u.type = 0 then some u.id
                else if u.type = 1 then
                  some (TransactionController.resolveTargetUser u b.target_user_id)
                else none) t.user_id))

/-- The `POST /transactions` pipeline of the routes file that wires
`checkWritePermissions` in front of the handler. -/
def Routes.transactionsPost (u : ReqUser) (b : TxCreateBody)
    (userExists : Nat → Bool) (cats : List CategoryRow) (allTags : List TagRow) :
    Except Nat (TxRow × List TagRow) :=
  if checkWritePermissions u then .error 403
  else TransactionController.createTransaction u b userExists cats allTags

/-- tagController.js (second half) `TransactionController.update`,
restricted to the `amount` field of the found row: a supplied amount below
the model-validation minimum 0.01 makes `update` raise, the transaction is
rolled back and the catch block answers 500 with the row unchanged. -/
def TransactionController.updateTransactionAmount (tx : TxRow) (amount : Option ℚ) :
    Nat × TxRow :=
  match amount with
  | none => (200, tx)
  | some a => if a < 1/100 then (500, tx) else (200, { tx with amount := a })

/-- tagController.js `TagController.create`: owner resolution (admins may
specify a truthy `target_user_id`). -/
def TagController.resolveTagOwner (u : ReqUser) (target_user_id : Option Nat) : Nat :=
  if u.type = 1 then target_user_id.getD u.id else u.id

/-- tagController.js `TagController.create`: viewer 403, required name,
per-owner uniqueness check against the lowercased name, stored name
lowercased. -/
def TagController.createTag (u : ReqUser) (name : Option String)
    (target_user_id : Option Nat) (existing : List TagRow) : Except Nat TagRow :=
  if u.type = 2 then .error 403
  else if !(jsTruthyStr name) then .error 400
  else if existing.any (fun t => t.name == strToLower (name.getD "") &&
      t.user_id == TagController.resolveTagOwner u target_user_id) then .error 400
  else .ok { id := 0, user_id := TagController.resolveTagOwner u target_user_id,
             name := strToLower (name.getD "") }

/-- tagController.js `TagController.update`, applied to the tag row found
under the user filter: when a truthy new name differs (lowercased) from the
stored name, a per-owner conflict check against the lowercased name runs;
the merged update stores the lowercased name. -/
def TagController.updateTag (g : TagRow) (name : Option String)
    (existing : List TagRow) : Except Nat TagRow :=
  if jsTruthyStr name ∧ strToLower (name.getD "") ≠ g.name then
    (if existing.any (fun t =>
          t.name == strToLower (name.getD "") && t.user_id == g.user_id && !(t.id == g.id)) then
      .error 400
    else .ok { g with name := strToLower (name.getD "") })
  else .ok { g with name := if jsTruthyStr name then strToLower (name.getD "") else g.name }

/-- logMiddleware.js `shouldSkipLogging`: the `skipPaths` part. -/
def skipOtherPaths (p : String) : Bool :=
  strContains p "/api/logs" || strContains p "/health" ||
  strContains p "/status" || strContains p "/favicon.ico"

/-- logMiddleware.js `shouldSkipLogging`. -/
def shouldSkipLogging (method path : String) : Bool :=
  method == "GET" || strContains path "/auth/login" || skipOtherPaths path

/-- logMiddleware.js `determineAction`: the ordered first-match
classification of method and path. -/
def determineAction (method path : String) : String :=
  if strContains path "/auth/register" then "register"
  else if strContains path "/auth/login" then "login"
  else if strContains path "/progress" ∧ method = "POST" then "add_progress"
  else if strContains path "/progress" ∧ method = "GET" then "get_progress"
  else if strContains path "/transactions" ∧ method = "GET" then "get_related_transactions"
  else if strContains path "/stats" ∧ method = "GET" then "get_stats"
  else if strContains path "/entity/" ∧ method = "GET" then "get_entity_logs"
  else if strContains path "/reports/" then "get_report"
  else if method = "POST" then "create"
  else if method = "GET" then (if endsWithNumId path then "read_one" else "read_all")
  else if method = "PUT" then "update"
  else if method = "DELETE" then "delete"
  else "unknown"

/-- logMiddleware.js: the `action` string that `logApiCall` hands to
`LogController.createLogEntry` (which stores it verbatim), or `none` when
the middleware skips the request. The persisted value is
`` `api_${action}` ``. -/
def loggedAction (method path : String) : Option String :=
  if shouldSkipLogging method path then none
  else some ("api_" ++ determineAction method path)

/-- Paths on which a mutating request falls through to the plain
method-based branch of `determineAction` and is not skipped: none of the
earlier first-match substrings and none of the skip substrings occur. -/
def mutationFallbackPath (p : String) : Bool :=
  !(strContains p "/auth/register") && !(strContains p "/auth/login") &&
  !(strContains p "/progress") && !(strContains p "/reports/") && !(skipOtherPaths p)

/-- Helper: ASCII `Char.toLower` never returns an uppercase letter. -/
theorem charToLower_isUpper_false (c : Char) : (Char.toLower c).isUpper = false := by
  simp only [Char.toLower]
  split
  · rename_i h
    obtain ⟨h1, h2⟩ := h
    rw [ge_iff_le] at h1
    generalize c.toNat = n at h1 h2
    interval_cases n <;> decide
  · rename_i h
    simp only [Char.isUpper, Bool.and_eq_false_iff, decide_eq_false_iff_not]
    by_contra hc
    push_neg at hc
    exact h ⟨hc.1, hc.2⟩

/-- Helper: `strToLower` produces no uppercase characters. -/
theorem strToLower_no_upper (s : String) : ∀ c ∈ (strToLower s).data, c.isUpper = false := by
  intro c hc
  simp only [strToLower, List.mem_map] at hc
  obtain ⟨c0, _, rfl⟩ := hc
  exact charToLower_isUpper_false c0

/-- C1: the claim says every list result for a non-admin caller is scoped to
the caller's effective owner (delegation target for viewers). The code
violates this: `GoalController.buildUserFilter` and
`TransactionController.buildUserFilter` add no `user_id` constraint for
viewers (type 2), so a viewer delegated to user 5 receives rows owned by
user 9 from the goal and transaction listings, while the tag listing
(whose `buildUserFilter` does handle viewers) correctly returns nothing. -/
theorem viewer_scope_not_enforced_for_goals_and_transactions :
    GoalController.listGoals ⟨7, 2, some 5⟩ [⟨1, 9, 0, 100, false⟩] = [⟨1, 9, 0, 100, false⟩] ∧
    TransactionController.listTransactions ⟨7, 2, some 5⟩ [⟨1, 9, 50, 3⟩] = [⟨1, 9, 50, 3⟩] ∧
    (9 : Nat) ≠ 5 ∧ (9 : Nat) ≠ 7 ∧
    TagController.listTags ⟨7, 2, some 5⟩ [⟨1, 9, "food"⟩] = [] := by
  refine ⟨?_, ?_, by decide, by decide, ?_⟩ <;> decide

/-- C2: the claim says viewer self-profile edit and self-deletion bypass the
read-only rule and are not rejected with 403. In the routes file that wires
`checkWritePermissions` in front of `PUT /users/:id` and
`DELETE /users/:id`, the middleware answers 403 for every viewer before the
controller runs, even though `UserController.delete` alone would allow the
self-deletion (204) and `UserController.update` alone would find the
viewer's own row (200): the controller-level bypass is dead code. -/
theorem viewer_self_delete_blocked_by_middleware :
    Routes.usersIdDelete ⟨7, 2, none⟩ 7 true 0 = 403 ∧
    UserController.deleteUser ⟨7, 2, none⟩ 7 true 0 = 204 ∧
    Routes.usersIdPut ⟨7, 2, none⟩ 7 [7] = 403 ∧
    UserController.updateUser ⟨7, 2, none⟩ 7 [7] = 200 := by
  refine ⟨?_, ?_, ?_, ?_⟩ <;> decide

/-- C8 counterexample: the persisted action for `POST /auth/register` is
the prefixed string `api_register` handed to `createLogEntry`, not the bare
classification `register` the claim states. -/
theorem audit_action_prefix_counterexample :
    loggedAction "POST" "/auth/register" = some "api_register" ∧
    ("api_register" : String) ≠ "register" := by
  refine ⟨?_, ?_⟩ <;> decide

/-- C3 counterexample: a goal created with a supplied `current_amount` equal
to its `target_amount` comes back with `is_completed = false` (the built
`goalData` never sets the flag), and `update` with an explicit
`is_completed: false` body clears an already-set flag (so the transition is
not one-way). Both contradict the claim. -/
theorem goal_create_completion_counterexample :
    GoalController.createGoal ⟨1, 0, none⟩ (some "car") (some 100) (some 100) none
        true true true false =
      Except.ok { id := 0, user_id := 1, current_amount := 100,
                  target_amount := 100, is_completed := false } ∧
    ((100 : ℚ) ≤ 100) ∧
    GoalController.updateGoal
        { id := 0, user_id := 1, current_amount := 100, target_amount := 100,
          is_completed := true } none none (some false) =
      { id := 0, user_id := 1, current_amount := 100, target_amount := 100,
        is_completed := false } := by
  exact ⟨rfl, by norm_num, rfl⟩

/-- C3 amended: goal creation never sets `is_completed` (a goal created with
`current_amount ≥ target_amount` still has the flag `false`); the invariant
is instead maintained by `addProgress`, which rejects completed goals with
400 and on success sets `is_completed` exactly when the new current amount
reaches the target, and by `update`, which forces `is_completed = true`
whenever the body supplies a `current_amount` at least the existing
`target_amount` (while an explicit `is_completed: false` body without such
a `current_amount` clears the flag). -/
theorem goal_completion_invariant_amended :
    (∀ (u : ReqUser) (nm : Option String) (ta ca : Option ℚ) (tuid : Option Nat)
        (ue co dk nt : Bool) (g0 : GoalRow),
        GoalController.createGoal u nm ta ca tuid ue co dk nt = Except.ok g0 →
        g0.is_completed = false) ∧
    (∀ (g : GoalRow) (a : ℚ), g.is_completed = true →
        GoalController.addProgress g (some a) = (400, g)) ∧
    (∀ (g : GoalRow) (a : ℚ), g.is_completed = false → 0 < a →
        ((GoalController.addProgress g (some a)).2).is_completed =
          decide (g.target_amount ≤ g.current_amount + a)) ∧
    (∀ (g : GoalRow) (tb : Option ℚ) (ib : Option Bool) (c : ℚ),
        g.target_amount ≤ c →
        (GoalController.updateGoal g (some c) tb ib).is_completed = true) := by
  refine ⟨?_, ?_, ?_, ?_⟩
  · intro u nm ta ca tuid ue co dk nt g0 h
    unfold GoalController.createGoal at h
    repeat' split at h
    all_goals first
      | (injection h with h2; subst h2; rfl)
      | simp_all
  · intro g a h
    by_cases ha : a ≤ 0 <;> simp [GoalController.addProgress, ha, h]
  · intro g a h hpos
    by_cases hc : g.target_amount ≤ g.current_amount + a <;>
      simp [GoalController.addProgress, not_le.mpr hpos, h, hc]
  · intro g tb ib c hc
    simp [GoalController.updateGoal, hc]

/-- C3 amended witness: concrete instances of the amended invariant. -/
theorem goal_completion_invariant_amended_witness :
    GoalRow.is_completed ((GoalController.addProgress ⟨0, 1, 3, 10, false⟩ (some 7)).2) =
      decide ((10 : ℚ) ≤ 3 + 7) ∧
    GoalController.addProgress ⟨0, 1, 12, 10, true⟩ (some 1) = (400, ⟨0, 1, 12, 10, true⟩) ∧
    (GoalController.updateGoal ⟨0, 1, 0, 10, false⟩ (some 10) none none).is_completed = true := by
  exact ⟨goal_completion_invariant_amended.2.2.1 ⟨0, 1, 3, 10, false⟩ 7 rfl (by norm_num),
    goal_completion_invariant_amended.2.1 ⟨0, 1, 12, 10, true⟩ 1 rfl,
    goal_completion_invariant_amended.2.2.2 ⟨0, 1, 0, 10, false⟩ none none 10 (by norm_num)⟩

/-- C4: on a visible, not-yet-completed goal, `addProgress` with
`amount ≤ 0` answers 400 and leaves the goal unchanged; with a positive
amount that exactly closes the gap it answers 200, sets
`is_completed = true`, and the computed `remaining_amount` of the updated
goal is 0. -/
theorem addProgress_boundary (g : GoalRow) (a : ℚ) (hng : g.is_completed = false) :
    (a ≤ 0 → GoalController.addProgress g (some a) = (400, g)) ∧
    (0 < a → g.current_amount + a = g.target_amount →
      (GoalController.addProgress g (some a)).1 = 200 ∧
      ((GoalController.addProgress g (some a)).2).is_completed = true ∧
      GoalController.remainingAmount ((GoalController.addProgress g (some a)).2) = 0) := by
  constructor
  · intro ha
    simp [GoalController.addProgress, ha]
  · intro hpos hexact
    have hc : g.target_amount ≤ g.current_amount + a := le_of_eq hexact.symm
    refine ⟨?_, ?_, ?_⟩ <;>
      simp [GoalController.addProgress, not_le.mpr hpos, hng, hc,
        GoalController.remainingAmount, hexact]

/-- C4 witness: goal with current 4, target 10; amount 6 closes the gap
exactly, amount -1 is rejected with the goal unchanged. -/
theorem addProgress_boundary_witness :
    (GoalController.addProgress ⟨0, 1, 4, 10, false⟩ (some 6)).1 = 200 ∧
    ((GoalController.addProgress ⟨0, 1, 4, 10, false⟩ (some 6)).2).is_completed = true ∧
    GoalController.remainingAmount ((GoalController.addProgress ⟨0, 1, 4, 10, false⟩ (some 6)).2) = 0 ∧
    GoalController.addProgress ⟨0, 1, 4, 10, false⟩ (some (-1)) = (400, ⟨0, 1, 4, 10, false⟩) := by
  have h1 := addProgress_boundary ⟨0, 1, 4, 10, false⟩ 6 rfl
  have h2 := addProgress_boundary ⟨0, 1, 4, 10, false⟩ (-1) rfl
  have h3 := h1.2 (by norm_num) (by norm_num)
  exact ⟨h3.1, h3.2.1, h3.2.2, h2.1 (by norm_num)⟩

/-- C5 counterexample: goal with current 0, target 10 and amount 10. The
first `addProgress` completes the goal, the second identical call is
rejected with 400 ("Cannot add progress to completed goal"), so the two
calls add the amount once (10), not 2 × 10, and an error is produced. -/
theorem addProgress_double_counterexample :
    (GoalController.addProgress
        ((GoalController.addProgress ⟨0, 1, 0, 10, false⟩ (some 10)).2) (some 10)).1 = 400 ∧
    ((GoalController.addProgress
        ((GoalController.addProgress ⟨0, 1, 0, 10, false⟩ (some 10)).2) (some 10)).2).current_amount = 10 ∧
    (10 : ℚ) ≠ 0 + 2 * 10 := by
  refine ⟨?_, ?_, by norm_num⟩ <;> norm_num [GoalController.addProgress]

/-- C5 amended: repeating an identical positive `addProgress` adds
`2 × amount` provided the first call leaves the goal incomplete; when the
second call is the one that crosses the target it sets `is_completed` with
no error; but when the first call already reaches the target, the second
identical call is rejected with 400 and the amount is added only once. -/
theorem addProgress_repeat_amended (g : GoalRow) (a : ℚ) (hpos : 0 < a)
    (hnc : g.is_completed = false) :
    (g.current_amount + a < g.target_amount →
      (GoalController.addProgress g (some a)).1 = 200 ∧
      ((GoalController.addProgress g (some a)).2).is_completed = false ∧
      (GoalController.addProgress ((GoalController.addProgress g (some a)).2) (some a)).1 = 200 ∧
      ((GoalController.addProgress ((GoalController.addProgress g (some a)).2) (some a)).2).current_amount
        = g.current_amount + 2 * a ∧
      ((GoalController.addProgress ((GoalController.addProgress g (some a)).2) (some a)).2).is_completed
        = decide (g.target_amount ≤ g.current_amount + 2 * a)) ∧
    (g.target_amount ≤ g.current_amount + a →
      (GoalController.addProgress g (some a)).1 = 200 ∧
      ((GoalController.addProgress g (some a)).2).is_completed = true ∧
      GoalController.addProgress ((GoalController.addProgress g (some a)).2) (some a)
        = (400, (GoalController.addProgress g (some a)).2) ∧
      ((GoalController.addProgress g (some a)).2).current_amount = g.current_amount + a) := by
  constructor
  · intro hlt
    have hc1 : ¬ g.target_amount ≤ g.current_amount + a := not_le.mpr hlt
    have e1 : GoalController.addProgress g (some a) =
        (200, { g with current_amount := g.current_amount + a }) := by
      simp [GoalController.addProgress, not_le.mpr hpos, hnc, hc1]
    rw [e1]
    by_cases hc2 : g.target_amount ≤ g.current_amount + a + a
    · have e2 : GoalController.addProgress
          { g with current_amount := g.current_amount + a } (some a) =
          (200, { g with current_amount := g.current_amount + a + a, is_completed := true }) := by
        simp [GoalController.addProgress, not_le.mpr hpos, hnc, hc2]
      rw [e2]
      refine ⟨rfl, (by simp [hnc]), rfl, (by simp; ring), ?_⟩
      simp [show g.target_amount ≤ g.current_amount + 2 * a from by linarith]
    · have e2 : GoalController.addProgress
          { g with current_amount := g.current_amount + a } (some a) =
          (200, { g with current_amount := g.current_amount + a + a }) := by
        simp [GoalController.addProgress, not_le.mpr hpos, hnc, hc2]
      rw [e2]
      refine ⟨rfl, (by simp [hnc]), rfl, (by simp; ring), ?_⟩
      simp [hnc, show ¬ g.target_amount ≤ g.current_amount + 2 * a from by
        intro hcon; exact hc2 (by linarith)]
  · intro hge
    refine ⟨?_, ?_, ?_, ?_⟩ <;>
      simp [GoalController.addProgress, not_le.mpr hpos, hnc, hge]

/-- C5 amended witness: current 0, target 10. With amount 3 the two calls
add 6 and stay incomplete; with amount 10 the first call completes and the
second is rejected. -/
theorem addProgress_repeat_amended_witness :
    ((GoalController.addProgress
        ((GoalController.addProgress ⟨0, 1, 0, 10, false⟩ (some 3)).2) (some 3)).2).current_amount
      = 0 + 2 * 3 ∧
    (GoalController.addProgress
        ((GoalController.addProgress ⟨0, 1, 0, 10, false⟩ (some 10)).2) (some 10))
      = (400, (GoalController.addProgress ⟨0, 1, 0, 10, false⟩ (some 10)).2) := by
  have h1 := (addProgress_repeat_amended ⟨0, 1, 0, 10, false⟩ 3 (by norm_num) rfl).1 (by norm_num)
  have h2 := (addProgress_repeat_amended ⟨0, 1, 0, 10, false⟩ 10 (by norm_num) rfl).2 (by norm_num)
  exact ⟨h1.2.2.2.1, h2.2.2.1⟩

/-- C6: `getProgress` returns exactly the four milestones at 25/50/75/100%
of `target_amount`, each flagged achieved iff `current_amount` is at least
that fraction of the target, and `next_milestone` is the first unachieved
milestone in that order (`none` exactly when all four are achieved); for
the spec example (target 5000, current 1250) the progress percentage is 25,
only the 25% milestone is achieved, and the next milestone is the 50%
entry. -/
theorem getProgress_milestones_spec :
    (∀ g : GoalRow,
      (GoalController.goalMilestones g).map Milestone.percentage = [25, 50, 75, 100] ∧
      (∀ m ∈ GoalController.goalMilestones g,
        m.achieved = decide (m.percentage / 100 * g.target_amount ≤ g.current_amount)) ∧
      (GoalController.nextMilestone g = none ↔
        ∀ m ∈ GoalController.goalMilestones g, m.achieved = true) ∧
      (∀ m, GoalController.nextMilestone g = some m →
        m ∈ GoalController.goalMilestones g ∧ m.achieved = false ∧
        ∀ m2 ∈ GoalController.goalMilestones g, m2.achieved = false →
          m.percentage ≤ m2.percentage)) ∧
    GoalController.progressPercentage ⟨0, 1, 1250, 5000, false⟩ = 25 ∧
    (GoalController.goalMilestones ⟨0, 1, 1250, 5000, false⟩).map Milestone.achieved
      = [true, false, false, false] ∧
    GoalController.nextMilestone ⟨0, 1, 1250, 5000, false⟩ =
      some { percentage := 50, amount := 2500, achieved := false } := by
  refine ⟨?_, ?_, ?_, ?_⟩
  · intro g
    refine ⟨rfl, ?_, ?_, ?_⟩
    · intro m hm
      simp only [GoalController.goalMilestones, List.mem_cons, List.not_mem_nil, or_false] at hm
      rcases hm with rfl | rfl | rfl | rfl <;> dsimp only
      · rw [show (25 : ℚ) / 100 * g.target_amount = g.target_amount * (1/4) from by ring]
      · rw [show (50 : ℚ) / 100 * g.target_amount = g.target_amount * (1/2) from by ring]
      · rw [show (75 : ℚ) / 100 * g.target_amount = g.target_amount * (3/4) from by ring]
      · rw [show (100 : ℚ) / 100 * g.target_amount = g.target_amount from by ring]
    · simp [GoalController.nextMilestone, List.find?_eq_none]
    · intro m h
      by_cases h1 : g.target_amount * (1/4) ≤ g.current_amount <;>
        by_cases h2 : g.target_amount * (1/2) ≤ g.current_amount <;>
        by_cases h3 : g.target_amount * (3/4) ≤ g.current_amount <;>
        by_cases h4 : g.target_amount ≤ g.current_amount <;>
        simp only [GoalController.nextMilestone, GoalController.goalMilestones, List.find?,
          h1, h2, h3, h4, decide_True, decide_False, Bool.not_true, Bool.not_false,
          Option.some.injEq, reduceCtorEq, false_and, and_false] at h <;>
        first
          | exact h.elim
          | (subst h
             refine ⟨?_, by simp, ?_⟩
             · simp [GoalController.goalMilestones, h1, h2, h3, h4] <;> linarith
             · intro m2 hm2 hf
               simp only [GoalController.goalMilestones, List.mem_cons, List.not_mem_nil,
                 or_false] at hm2
               rcases hm2 with rfl | rfl | rfl | rfl <;>
                 simp_all <;> first | norm_num | linarith)
  · norm_num [GoalController.progressPercentage, jsRound, Rat.floor]
  · norm_num [GoalController.goalMilestones]
  · norm_num [GoalController.nextMilestone, GoalController.goalMilestones, List.find?]

/-- C6 witness: the universal part applied to the spec example goal. -/
theorem getProgress_milestones_spec_witness :
    (Milestone.mk 50 2500 false).achieved
      = decide ((Milestone.mk 50 2500 false).percentage / 100 * (5000 : ℚ) ≤ (1250 : ℚ)) ∧
    ((Milestone.mk 50 2500 false) ∈ GoalController.goalMilestones ⟨0, 1, 1250, 5000, false⟩ ∧
     (Milestone.mk 50 2500 false).achieved = false ∧
     ∀ m2 ∈ GoalController.goalMilestones ⟨0, 1, 1250, 5000, false⟩, m2.achieved = false →
       (Milestone.mk 50 2500 false).percentage ≤ m2.percentage) := by
  constructor
  · exact (getProgress_milestones_spec.1 ⟨0, 1, 1250, 5000, false⟩).2.1 _
      (by norm_num [GoalController.goalMilestones])
  · exact (getProgress_milestones_spec.1 ⟨0, 1, 1250, 5000, false⟩).2.2.2 _
      getProgress_milestones_spec.2.2.2

/-- C7 counterexample: a create request with amount -5 (all other fields
valid) is not rejected as a 400 validation error; it passes the truthiness
check, fails the DECIMAL `min: 0.01` model validation inside
`Transaction.create`, and the catch block answers 500. -/
theorem transaction_negative_amount_counterexample :
    TransactionController.createTransaction ⟨1, 0, none⟩
      { amount := some (-5), txType := some "expense", description := some "x",
        category_id := some 3, tags := none, target_user_id := none }
      (fun _ => true) [⟨3, 1⟩] [] = Except.error 500 ∧
    (Except.error 500 : Except Nat (TxRow × List TagRow)) ≠ Except.error 400 := by
  constructor
  · norm_num [TransactionController.createTransaction, TransactionController.resolveTargetUser,
      jsTruthyNum, jsTruthyStr, jsTruthyNat]
    exact ⟨by decide, by decide⟩
  · intro hcon
    exact absurd (Except.error.inj hcon) (by norm_num)

/-- C7 amended: no transaction with non-positive amount is ever persisted —
a create whose amount is `0` (or missing) fails the required-field check
with 400 before any data-base work, a negative amount instead fails the
DECIMAL `min: 0.01` model validation and is answered 500 after rollback
(so amount ≤ 0 can never reach a successful create), an update supplying a
non-positive amount is likewise answered 500 with the row unchanged, and
every successfully created row has amount ≥ 0.01 > 0. -/
theorem transaction_amount_validation_amended :
    (∀ (u : ReqUser) (b : TxCreateBody) (ue : Nat → Bool) (cats : List CategoryRow)
        (tags : List TagRow) (a : ℚ), b.amount = some a → a ≤ 0 →
        ∀ row tgs,
          TransactionController.createTransaction u b ue cats tags ≠ Except.ok (row, tgs)) ∧
    (∀ (u : ReqUser) (b : TxCreateBody), b.amount = some 0 →
        ∀ (ue : Nat → Bool) (cats : List CategoryRow) (tags : List TagRow),
        TransactionController.createTransaction u b ue cats tags = Except.error 400) ∧
    (∀ (u : ReqUser) (b : TxCreateBody) (ue : Nat → Bool) (cats : List CategoryRow)
        (tags : List TagRow) (row : TxRow) (tgs : List TagRow),
        TransactionController.createTransaction u b ue cats tags = Except.ok (row, tgs) →
        1/100 ≤ row.amount ∧ 0 < row.amount) ∧
    (∀ (tx : TxRow) (a : ℚ), a ≤ 0 →
        TransactionController.updateTransactionAmount tx (some a) = (500, tx)) := by
  refine ⟨?_, ?_, ?_, ?_⟩
  · intro u b ue cats tags a hamt ha row tgs hok
    have hlt : b.amount.getD 0 < 1/100 := by
      rw [hamt]
      simp only [Option.getD_some]
      linarith [show (0 : ℚ) < 1/100 from by norm_num]
    unfold TransactionController.createTransaction at hok
    repeat' split at hok
    all_goals first
      | (injection hok; done)
      | exact absurd hlt (by assumption)
  · intro u b hamt ue cats tags
    simp [TransactionController.createTransaction, hamt, jsTruthyNum]
  · intro u b ue cats tags row tgs hok
    unfold TransactionController.createTransaction at hok
    repeat' split at hok
    all_goals injection hok
    all_goals
      rename_i hpair
      simp only [not_lt] at *
      obtain ⟨hrow, -⟩ := Prod.mk.injEq .. |>.mp hpair
      rw [← hrow]
      dsimp only
      have hguard : (1 : ℚ)/100 ≤ b.amount.getD 0 := by assumption
      exact ⟨hguard, lt_of_lt_of_le (by norm_num) hguard⟩
  · intro tx a ha
    simp [TransactionController.updateTransactionAmount]
    exact lt_of_le_of_lt ha (by norm_num)

/-- C7 amended witness: concrete instances — amount 0 yields 400, a negative
update yields 500 with the row unchanged, and a negative create can never
yield a created row. -/
theorem transaction_amount_validation_amended_witness :
    TransactionController.createTransaction ⟨1, 0, none⟩
      { amount := some 0, txType := some "expense", description := some "x",
        category_id := some 3, tags := none, target_user_id := none }
      (fun _ => true) [⟨3, 1⟩] [] = Except.error 400 ∧
    TransactionController.updateTransactionAmount ⟨0, 1, 5, 1⟩ (some (-3)) =
      (500, ⟨0, 1, 5, 1⟩) ∧
    TransactionController.createTransaction ⟨1, 0, none⟩
      { amount := some (-2), txType := some "expense", description := some "x",
        category_id := some 3, tags := none, target_user_id := none }
      (fun _ => true) [⟨3, 1⟩] [] ≠ Except.ok (⟨0, 1, -2, 3⟩, []) := by
  refine ⟨?_, ?_, ?_⟩
  · exact transaction_amount_validation_amended.2.1 ⟨1, 0, none⟩ _ rfl _ _ _
  · exact transaction_amount_validation_amended.2.2.2 _ (-3) (by norm_num)
  · exact transaction_amount_validation_amended.1 _ _ _ _ _ (-2) rfl (by norm_num) _ _

/-- C8 amended: the persisted audit action equals `api_` prefixed to the
ordered first-match classification — a path containing `/auth/login` is
never logged; a mutating request to a path containing `/auth/register`
(and no earlier-matching or skip substring) records `api_register`; a POST
to a path containing `/progress` records `api_add_progress`; and on paths
matching none of the special substrings the method fallback records
`api_create` / `api_update` / `api_delete` for POST / PUT / DELETE. -/
theorem audit_action_classification_amended (m p : String) :
    (strContains p "/auth/login" = true → loggedAction m p = none) ∧
    (m ≠ "GET" → strContains p "/auth/login" = false → skipOtherPaths p = false →
      strContains p "/auth/register" = true → loggedAction m p = some "api_register") ∧
    (strContains p "/auth/login" = false → skipOtherPaths p = false →
      strContains p "/auth/register" = false → strContains p "/progress" = true →
      loggedAction "POST" p = some "api_add_progress") ∧
    (mutationFallbackPath p = true →
      loggedAction "POST" p = some "api_create" ∧
      loggedAction "PUT" p = some "api_update" ∧
      loggedAction "DELETE" p = some "api_delete") := by
  refine ⟨?_, ?_, ?_, ?_⟩
  · intro hlog
    simp [loggedAction, shouldSkipLogging, hlog]
  · intro hm hlog hskip hreg
    simp [loggedAction, shouldSkipLogging, determineAction, hm, hlog, hskip, hreg]
  · intro hlog hskip hreg hprog
    simp [loggedAction, shouldSkipLogging, determineAction, hlog, hskip, hreg, hprog]
  · intro hmf
    simp only [mutationFallbackPath, Bool.and_eq_true, Bool.not_eq_true'] at hmf
    obtain ⟨⟨⟨⟨hreg, hlog⟩, hprog⟩, hrep⟩, hskip⟩ := hmf
    refine ⟨?_, ?_, ?_⟩ <;>
      simp [loggedAction, shouldSkipLogging, determineAction, hreg, hlog, hprog, hrep, hskip]

/-- C8 amended witness: concrete routes — POST to a goal progress path,
PUT to a goal path, POST to the login path. -/
theorem audit_action_classification_amended_witness :
    loggedAction "POST" "/goals/3/progress" = some "api_add_progress" ∧
    loggedAction "PUT" "/goals/3" = some "api_update" ∧
    loggedAction "POST" "/auth/login" = none ∧
    loggedAction "POST" "/auth/register" = some "api_register" := by
  refine ⟨?_, ?_, ?_, ?_⟩
  · exact (audit_action_classification_amended "POST" "/goals/3/progress").2.2.1
      (by decide) (by decide) (by decide) (by decide)
  · exact ((audit_action_classification_amended "PUT" "/goals/3").2.2.2 (by decide)).2.1
  · exact (audit_action_classification_amended "POST" "/auth/login").1 (by decide)
  · exact (audit_action_classification_amended "POST" "/auth/register").2.1
      (by decide) (by decide) (by decide) (by decide)

/-- C9: whenever the `POST /transactions` pipeline succeeds for a caller of
type 0, 1 or 2, the tags attached to (and returned with) the created
transaction are exactly the tag rows whose ids occur in the supplied list
and whose owner is the created row's owner; and replacing the supplied tag
id list by any other list never turns a successful create into an error
(ids outside the owner's tag set are silently dropped). -/
theorem transaction_tags_roundtrip
    (u : ReqUser) (b : TxCreateBody) (ue : Nat → Bool) (cats : List CategoryRow)
    (allTags : List TagRow) (row : TxRow) (tgs : List TagRow)
    (htype : u.type ≤ 2)
    (h : Routes.transactionsPost u b ue cats allTags = Except.ok (row, tgs)) :
    tgs = allTags.filter
        (fun t => (b.tags.getD []).contains t.id && t.user_id == row.user_id) ∧
    (∀ ids : List Nat,
      ∃ row2 tgs2, Routes.transactionsPost u { b with tags := some ids } ue cats allTags
        = Except.ok (row2, tgs2)) := by
  unfold Routes.transactionsPost at h
  split at h
  case isTrue => exact absurd h (by simp)
  case isFalse hviewer =>
  simp only [checkWritePermissions, beq_iff_eq] at hviewer
  have htype01 : u.type = 0 ∨ u.type = 1 := by omega
  unfold TransactionController.createTransaction at h
  by_cases c1 : (!(jsTruthyNum b.amount) || !(jsTruthyStr b.txType) ||
      !(jsTruthyStr b.description) || !(jsTruthyNat b.category_id)) = true
  · rw [if_pos c1] at h
    exact absurd h (by simp)
  · rw [if_neg c1] at h
    by_cases c2 : (!(ue (TransactionController.resolveTargetUser u b.target_user_id))) = true
    · rw [if_pos c2] at h
      exact absurd h (by simp)
    · rw [if_neg c2] at h
      by_cases c3 : (!(cats.any (fun c => c.id == b.category_id.getD 0 &&
          (decide (u.type ≠ 0) || c.user_id == u.id)))) = true
      · rw [if_pos c3] at h
        exact absurd h (by simp)
      · rw [if_neg c3] at h
        by_cases c4 : b.amount.getD 0 < 1/100
        · rw [if_pos c4] at h
          exact absurd h (by simp)
        · rw [if_neg c4] at h
          injection h
          rename_i hpair
          obtain ⟨hrow, htgs⟩ := Prod.mk.injEq .. |>.mp hpair
          constructor
          · rw [← htgs, ← hrow]
            dsimp only
            rcases hb : b.tags with _ | ids
            · simp [hb]
            · rcases htype01 with h0 | h1
              · simp [hb, h0, matchesUserFilter, TransactionController.resolveTargetUser]
              · simp [hb, h1, matchesUserFilter, TransactionController.resolveTargetUser]
          · intro ids
            have hrun : Routes.transactionsPost u { b with tags := some ids } ue cats allTags =
                Except.ok
                  (⟨0, TransactionController.resolveTargetUser u b.target_user_id,
                    b.amount.getD 0, b.category_id.getD 0⟩,
                   allTags.filter (fun t => ids.contains t.id && matchesUserFilter
                     (if u.type = 0 then some u.id
                      else if u.type = 1 then
                        some (TransactionController.resolveTargetUser u b.target_user_id)
                      else none) t.user_id)) := by
              unfold Routes.transactionsPost TransactionController.createTransaction
              rw [if_neg (by simp [checkWritePermissions, hviewer])]
              dsimp only
              rw [if_neg c1, if_neg c2, if_neg c3, if_neg c4]
            exact ⟨_, _, hrun⟩

/-- C9 witness: a regular user (id 1) creates a transaction with
`tags: [1, 3]` over a tag set where tag 1 belongs to them and tag 3 belongs
to user 9; exactly tag 1 is attached, tag 3 is silently dropped. -/
theorem transaction_tags_roundtrip_witness :
    ([⟨1, 1, "a"⟩] : List TagRow) =
      List.filter (fun t => ((some [1, 3] : Option (List Nat)).getD []).contains t.id &&
        t.user_id == (⟨0, 1, 10, 3⟩ : TxRow).user_id)
        [⟨1, 1, "a"⟩, ⟨2, 1, "b"⟩, ⟨3, 9, "c"⟩] := by
  have happ := transaction_tags_roundtrip ⟨1, 0, none⟩
    { amount := some 10, txType := some "expense", description := some "x",
      category_id := some 3, tags := some [1, 3], target_user_id := none }
    (fun _ => true) [⟨3, 1⟩] [⟨1, 1, "a"⟩, ⟨2, 1, "b"⟩, ⟨3, 9, "c"⟩]
    ⟨0, 1, 10, 3⟩ [⟨1, 1, "a"⟩] (by norm_num)
    (by
      norm_num [Routes.transactionsPost, TransactionController.createTransaction,
        TransactionController.resolveTargetUser, checkWritePermissions,
        jsTruthyNum, jsTruthyStr, jsTruthyNat, matchesUserFilter]
      rintro (hcon | hcon) <;> exact absurd hcon (by decide))
  exact happ.1

/-- C10: every tag name persisted through `TagController.create` or
`TagController.update` is the lowercased form of the client-supplied name
(it contains no uppercase ASCII letter), and the per-owner uniqueness check
runs against the lowercased form, so two names with the same lowercase form
conflict (case-insensitive uniqueness). -/
theorem tag_name_lowercase_uniqueness
    (u : ReqUser) (nm : String) (tuid : Option Nat) (existing : List TagRow)
    (g : TagRow) :
    (∀ t, TagController.createTag u (some nm) tuid existing = Except.ok t →
      t.name = strToLower nm ∧ ∀ c ∈ t.name.data, c.isUpper = false) ∧
    (∀ n2 : String, u.type ≠ 2 → strToLower n2 = strToLower nm →
      (∃ t0 ∈ existing, t0.user_id = TagController.resolveTagOwner u tuid ∧
        t0.name = strToLower nm) →
      TagController.createTag u (some n2) tuid existing = Except.error 400) ∧
    (∀ t, TagController.updateTag g (some nm) existing = Except.ok t →
      nm ≠ "" → t.name = strToLower nm) ∧
    (nm ≠ "" → strToLower nm ≠ g.name →
      (∃ t0 ∈ existing, t0.name = strToLower nm ∧ t0.user_id = g.user_id ∧ t0.id ≠ g.id) →
      TagController.updateTag g (some nm) existing = Except.error 400) := by
  refine ⟨?_, ?_, ?_, ?_⟩
  · intro t hok
    unfold TagController.createTag at hok
    repeat' split at hok
    all_goals injection hok
    all_goals rename_i hname
    all_goals rw [← hname]
    all_goals exact ⟨rfl, strToLower_no_upper nm⟩
  · intro n2 hnotviewer hlower hex
    obtain ⟨t0, ht0mem, ht0uid, ht0name⟩ := hex
    unfold TagController.createTag
    rw [if_neg hnotviewer]
    by_cases hn2 : jsTruthyStr (some n2) = true
    · rw [if_neg (by simp [hn2])]
      rw [if_pos]
      simp only [List.any_eq_true]
      refine ⟨t0, ht0mem, ?_⟩
      simp [Option.getD_some, hlower, ht0name, ht0uid]
    · rw [if_pos (by simp_all)]
  · intro t hok hne
    unfold TagController.updateTag at hok
    have htr : jsTruthyStr (some nm) = true := by simp [jsTruthyStr, hne]
    repeat' split at hok
    all_goals injection hok
    all_goals rename_i hname
    all_goals rw [← hname]
    all_goals simp_all
  · intro hne hdiff hex
    obtain ⟨t0, ht0mem, ht0name, ht0uid, ht0id⟩ := hex
    have htr : jsTruthyStr (some nm) = true := by simp [jsTruthyStr, hne]
    unfold TagController.updateTag
    rw [if_pos ⟨htr, by simpa using hdiff⟩]
    rw [if_pos]
    simp only [List.any_eq_true]
    refine ⟨t0, ht0mem, ?_⟩
    simp [Option.getD_some, ht0name, ht0uid, ht0id]

/-- C10 witness: creating a tag named `FooD` stores `food` (no uppercase),
and creating `Food` when the owner already has `food` is rejected 400. -/
theorem tag_name_lowercase_uniqueness_witness :
    (("food" : String) = strToLower "FooD" ∧
      ∀ c ∈ ("food" : String).data, c.isUpper = false) ∧
    TagController.createTag ⟨1, 0, none⟩ (some "Food") none [⟨4, 1, "food"⟩] =
      Except.error 400 := by
  constructor
  · exact (tag_name_lowercase_uniqueness ⟨1, 0, none⟩ "FooD" none [] ⟨0, 0, ""⟩).1
      ⟨0, 1, "food"⟩ rfl
  · exact (tag_name_lowercase_uniqueness ⟨1, 0, none⟩ "food" none [⟨4, 1, "food"⟩]
      ⟨0, 0, ""⟩).2.1 "Food" (by decide) (by decide)
      ⟨⟨4, 1, "food"⟩, by decide, by decide, by decide⟩
